import Mathlib

/-!
Shallow embedding of the NebulaSoft support-agent repository.

Sources embedded here:
* `src/tools.py` — the four tools (`search_documentation`, `calculate_pricing`,
  `escalate_ticket`, `lookup_ticket`);
* `src/agent.py` — the REPL variant of the bounded tool-calling loop
  (`run_agent_with_tools`, embedded as `Agent.run_agent_with_tools`);
* `src/app.py` — the web-chat variant of the same loop
  (embedded as `App.run_agent_with_tools`).

Third-party boundaries are modelled explicitly:
* Chroma similarity search (`similarity_search_with_score`) is an abstract
  query function `SimIndex`; distance scores (floats in the source) are
  modelled as rationals, which preserves the order comparisons the code makes;
* the ticket log file is a sequence of lines, each either blank, a line whose
  JSON processing raises (constructor `LogLine.malformed`, carrying the
  exception text), or a line parsing to a complete ticket object
  (`LogLine.record`); a missing file is `Option.none`;
* `datetime.now()` is passed in as the pair of strings the code derives from
  it (`strftime` compact form and `isoformat`);
* Python `str.lower` / `str.upper` / `str.capitalize` are modelled on the
  ASCII range (`pyLower`, `pyUpper`, `pyCapitalize`), which is exact for every
  string the repository compares or stores;
* Python float formatting `%.4f` is modelled as decimal rounding of the exact
  rational (`formatScore4`).
-/

/-- ASCII model of Python `str.lower()` (tools.py lines 221 and 269 apply it
to plan types and severity levels, all ASCII). -/
def pyLower (s : String) : String := String.mk (s.data.map Char.toLower)

/-- ASCII model of Python `str.upper()` (tools.py line 291 applies it to a
severity level). -/
def pyUpper (s : String) : String := String.mk (s.data.map Char.toUpper)

/-- ASCII model of Python `str.capitalize()` (tools.py line 231 applies it to
an already lowercased plan name): first character uppercased, rest
lowercased. -/
def pyCapitalize (s : String) : String :=
  match s.data with
  | [] => ""
  | c :: cs => String.mk (c.toUpper :: cs.map Char.toLower)

/-- Model of Python `sep.join(xs)` (tools.py line 180). -/
def joinSep (sep : String) : List String → String
  | [] => ""
  | [x] => x
  | x :: xs => x ++ sep ++ joinSep sep xs

/-! ## Pricing calculator (tools.py, `PricingCalculatorTool`) -/

/-- Rate table `PricingCalculatorTool.PRICING` (tools.py lines 213-217). -/
def PRICING : List (String × Int) := [("basic", 10), ("pro", 20), ("enterprise", 40)]

/-- Embedding of `PricingCalculatorTool._run` (tools.py lines 219-237):
lowercase the plan type, reject unknown plans with an error string, otherwise
compute `total_cost = number_of_users * price_per_user` and render the
breakdown. -/
def calculate_pricing (number_of_users : Int) (plan_type : String) : String :=
  let plan := pyLower plan_type
  match PRICING.lookup plan with
  | none =>
      "Error: Invalid plan type \x27" ++ plan ++
        "\x27. Valid options are: basic, pro, enterprise"
  | some price_per_user =>
      let total_cost := number_of_users * price_per_user
      "Pricing Calculation:\nPlan: " ++ pyCapitalize plan ++
        "\nNumber of Users: " ++ toString number_of_users ++
        "\nPrice per User: $" ++ toString price_per_user ++
        "/month\nTotal Monthly Cost: $" ++ toString total_cost ++ "/month"

/-! ## Ticket log (tools.py, `TicketEscalationTool` and `TicketLookupTool`) -/

/-- Ticket record as built by `TicketEscalationTool._run`
(tools.py lines 275-281): the five JSON keys in insertion order. -/
structure Ticket where
  ticket_id : String
  timestamp : String
  summary : String
  severity : String
  status : String
deriving DecidableEq

/-- One line of `tickets.log` as seen by the lookup scan (tools.py
lines 325-328): a blank line (skipped by `if not line.strip()`), a line whose
JSON processing raises (the carried string is the exception text `str(e)`), or
a line that parses to a complete ticket object. -/
inductive LogLine where
  | blank : LogLine
  | malformed : String → LogLine
  | record : Ticket → LogLine
deriving DecidableEq

/-- Projection of a log line to its ticket, if it is a record line. -/
def LogLine.recordOf : LogLine → Option Ticket
  | .record t => some t
  | _ => none

/-- Details block returned by `TicketLookupTool._run` on a match
(tools.py lines 330-337). -/
def ticketDetails (t : Ticket) : String :=
  "🎫 Ticket Details:\nTicket ID: " ++ t.ticket_id ++
    "\nCreated At: " ++ t.timestamp ++
    "\nSeverity: " ++ t.severity ++
    "\nStatus: " ++ t.status ++
    "\nSummary: " ++ t.summary

/-- The `for line in f` scan of `TicketLookupTool._run` (tools.py
lines 325-329): skip blank lines, stop with the exception text when a line
raises (the surrounding `try` catches it), stop with the first record whose id
matches exactly, otherwise report no match. -/
def scanTicketLog : List LogLine → String → Except String (Option Ticket)
  | [], _ => Except.ok none
  | LogLine.blank :: rest, tid => scanTicketLog rest tid
  | LogLine.malformed e :: _, _ => Except.error e
  | LogLine.record t :: rest, tid =>
      if t.ticket_id == tid then Except.ok (some t) else scanTicketLog rest tid

/-- Embedding of `TicketLookupTool._run` (tools.py lines 318-341). The log
argument is `none` when `tickets.log` does not exist. The function only reads
the log; it returns a string and no updated log, mirroring the source, which
opens the file in read mode only. -/
def lookup_ticket (log : Option (List LogLine)) (ticket_id : String) : String :=
  match log with
  | none => "No tickets found in the system."
  | some lines =>
      match scanTicketLog lines ticket_id with
      | Except.error e => "Error reading ticket log: " ++ e
      | Except.ok (some t) => ticketDetails t
      | Except.ok none => "No ticket found with ID " ++ ticket_id ++ "."

/-- Embedding of `TicketEscalationTool._run` (tools.py lines 267-299).
`nowCompact` is `datetime.now().strftime` of the second-granularity pattern
and `nowIso` is `datetime.now().isoformat()`. Returns the updated log (append
mode creates a missing file, hence `Option.getD []`) and the reply string.
The file append is modelled as succeeding; the `except` branch of the source
only converts an OS failure to an error string. -/
def escalate_ticket (log : Option (List LogLine))
    (summary severity_level nowCompact nowIso : String) :
    Option (List LogLine) × String :=
  let sev := pyLower severity_level
  if sev ∈ ["low", "medium", "high"] then
    let ticket : Ticket :=
      { ticket_id := "TKT-" ++ nowCompact
        timestamp := nowIso
        summary := summary
        severity := sev
        status := "open" }
    (some (log.getD [] ++ [LogLine.record ticket]),
      "🎫 Ticket Escalated Successfully!\nTicket ID: " ++ ticket.ticket_id ++
        "\nSeverity: " ++ pyUpper sev ++
        "\nSummary: " ++ summary ++
        "\nStatus: Open\nA Tier-2 support representative will contact you shortly.")
  else
    (log, "Error: Invalid severity level \x27" ++ sev ++ "\x27")

/-! ## Documentation search (tools.py, `DocSearchTool`) -/

/-- Document handed back by a similarity search: `page_content` plus the two
metadata fields the formatter reads with defaults (tools.py lines 171-172). -/
structure RDoc where
  page_content : String
  source : Option String
  chunk_id : Option String
deriving DecidableEq

/-- Origin tag attached when merging (tools.py lines 154 and 160). -/
inductive KB where
  | nebula : KB
  | user : KB
deriving DecidableEq

/-- Abstract Chroma index: `similarity_search_with_score(query, k)` as a
black-box function. Float distance scores are modelled as rationals. -/
abbrev SimIndex := String → Nat → List (RDoc × ℚ)

/-- One entry of the merged `results` list: `(doc, score, kb_type)`
(tools.py lines 154 and 160). -/
structure SearchHit where
  doc : RDoc
  score : ℚ
  kb : KB

/-- Comparison used by `results.sort(key=lambda tup: tup[1])`
(tools.py line 166): ascending distance score. -/
def hitLE (a b : SearchHit) : Prop := a.score ≤ b.score

instance : DecidableRel hitLE := fun a b => inferInstanceAs (Decidable (a.score ≤ b.score))

instance : IsTotal SearchHit hitLE := ⟨fun a b => le_total a.score b.score⟩

instance : IsTrans SearchHit hitLE := ⟨fun _ _ _ hab hbc => le_trans hab hbc⟩

/-- Model of Python `%.4f` applied to a distance score (tools.py line 177):
round to four decimal places and pad the fraction with leading zeros. -/
def formatScore4 (q : ℚ) : String :=
  let n : Int := Int.floor (q * 10000 + 1 / 2)
  let m : Nat := n.natAbs
  let fracDigits := toString (m % 10000)
  (if n < 0 then "-" else "") ++ toString (m / 10000) ++ "." ++
    String.pushn "" (Char.ofNat 48) (4 - fracDigits.length) ++ fracDigits

/-- Citation block for one merged result (tools.py lines 170-178). -/
def formatHit (h : SearchHit) : String :=
  let source := h.doc.source.getD "Unknown"
  let chunk := h.doc.chunk_id.getD "N/A"
  let kbLabel := match h.kb with
    | KB.nebula => "NebulaSoft Manual"
    | KB.user => "Uploaded Document"
  "[" ++ kbLabel ++ " | Source: " ++ source ++ ", Chunk: " ++ chunk ++
    ", Score: " ++ formatScore4 h.score ++ "]\n" ++ h.doc.page_content

/-- The `results` list built by `DocSearchTool._run` (tools.py lines
149-160): always fetch `k = 3` from the base index and tag the hits, then
append `k = 3` session hits when the session index exists. -/
def mergedResults (ndb : SimIndex) (tempUserDB : Option SimIndex) (query : String) :
    List SearchHit :=
  ((ndb query 3).map fun p => ⟨p.1, p.2, KB.nebula⟩) ++
    (match tempUserDB with
     | some udb => (udb query 3).map fun p => ⟨p.1, p.2, KB.user⟩
     | none => [])

/-- Embedding of `DocSearchTool._run` (tools.py lines 140-183).
`nebulaDB` is `none` when the base store failed to load (`NEBULA_DB is None`);
`tempUserDB` is `none` before any upload (`TEMP_USER_DB is None`). The merge
returns the sentinel when the combined list is empty, otherwise sorts
ascending by score (a stable sort, matching Python `list.sort`), truncates to
the top 5, renders citation blocks and joins them with the visible
separator. -/
def search_documentation (nebulaDB tempUserDB : Option SimIndex) (query : String) : String :=
  match nebulaDB with
  | none =>
      "Error: NebulaSoft documentation database is not available. " ++
        "Please run ingest.py to build the vector database."
  | some ndb =>
      if (mergedResults ndb tempUserDB query).isEmpty then
        "No relevant documentation was found for this query."
      else
        joinSep "\n\n---\n\n"
          (((List.insertionSort hitLE (mergedResults ndb tempUserDB query)).take 5).map formatHit)

/-! ## Tool-calling loop (agent.py and app.py, `run_agent_with_tools`) -/

/-- Keyword arguments of a tool call, as string pairs. -/
abbrev ToolArgs := List (String × String)

/-- A model-requested tool invocation: the `name`, `args` and `id` entries the
loop reads from each element of `response.tool_calls`. -/
structure ToolCall where
  name : String
  args : ToolArgs
  id : String

/-- A model reply: its text `content` and the requested `tool_calls`. -/
structure Response where
  content : String
  tool_calls : List ToolCall

/-- One turn of the conversation history: system instruction, user message,
model reply, or tool result carrying the id of the call it answers. -/
inductive Msg where
  | system : String → Msg
  | human : String → Msg
  | ai : Response → Msg
  | tool : String → String → Msg

/-- A registered tool: its `name` and a `run` that either returns a string or
raises (modelled by `Except`, caught at the dispatch site). The four concrete
tools of tools.py always return strings. -/
structure Tool where
  name : String
  run : ToolArgs → Except String String

/-- First registered tool whose name equals the requested name exactly —
the `for tool in tools: if tool.name == tool_name: ... break` scan
(agent.py lines 118-124). -/
def findTool (tools : List Tool) (name : String) : Option Tool :=
  tools.find? fun t => t.name == name

/-- Result string for one requested call (agent.py lines 117-127): run the
matching tool, converting an exception to an error string; if no tool
matches, synthesize the not-found result. -/
def execCall (tools : List Tool) (call : ToolCall) : String :=
  match findTool tools call.name with
  | some tool =>
      match tool.run call.args with
      | Except.ok r => r
      | Except.error e => "Error executing tool: " ++ e
  | none => "Tool " ++ call.name ++ " not found"

/-- Tool-result turns appended for one model reply, in request order, each
carrying the originating call identifier (agent.py lines 108-136). -/
def dispatch (tools : List Tool) (calls : List ToolCall) : List Msg :=
  calls.map fun call => Msg.tool (execCall tools call) call.id

/-- Exhaustion reply of agent.py line 138. -/
def agentExhaustionMessage : String :=
  "I apologize, but I\x27ve reached the maximum number of iterations. " ++
    "Let me escalate this to Tier-2 support."

/-- Exhaustion reply of app.py lines 173-176. -/
def appExhaustionMessage : String :=
  "I apologize, but I couldn’t resolve this automatically. " ++
    "I will escalate this to Tier-2 support."

namespace Agent

/-- The `while iteration < max_iterations` loop of agent.py lines 92-138,
with the remaining iteration budget as fuel: invoke the model, append its
reply, finish with the reply text when no tools are requested, otherwise
append one tool-result turn per requested call and continue; an exhausted
budget yields the fixed exhaustion message. -/
def runLoop (llm : List Msg → Response) (tools : List Tool) :
    Nat → List Msg → String
  | 0, _ => agentExhaustionMessage
  | n + 1, messages =>
      let response := llm messages
      let messages1 := messages ++ [Msg.ai response]
      if response.tool_calls.isEmpty then response.content
      else runLoop llm tools n (messages1 ++ dispatch tools response.tool_calls)

/-- Embedding of agent.py `run_agent_with_tools` (lines 80-138): build the
initial history from the system prompt and user input, then run the loop with
`max_iterations = 5`. -/
def run_agent_with_tools (llm : List Msg → Response) (tools : List Tool)
    (system_prompt user_input : String) : String :=
  runLoop llm tools 5 [Msg.system system_prompt, Msg.human user_input]

end Agent

namespace App

/-- The `while iteration < max_iterations` loop of app.py lines 139-176;
identical control flow to the agent.py loop, with app.py's exhaustion
message. -/
def runLoop (llm : List Msg → Response) (tools : List Tool) :
    Nat → List Msg → String
  | 0, _ => appExhaustionMessage
  | n + 1, messages =>
      let response := llm messages
      let messages1 := messages ++ [Msg.ai response]
      if response.tool_calls.isEmpty then response.content
      else runLoop llm tools n (messages1 ++ dispatch tools response.tool_calls)

/-- Embedding of app.py `run_agent_with_tools` (lines 139-176): the caller
passes the history; `max_iterations = 5`. -/
def run_agent_with_tools (llm : List Msg → Response) (tools : List Tool)
    (messages : List Msg) : String :=
  runLoop llm tools 5 messages

end App

/-- Number of model invocations the loop performs on the given fuel and
history: one per iteration entered, following the same traversal as
`Agent.runLoop` and `App.runLoop` (which differ only in the exhaustion
string). -/
def modelRoundTrips (llm : List Msg → Response) (tools : List Tool) :
    Nat → List Msg → Nat
  | 0, _ => 0
  | n + 1, messages =>
      let response := llm messages
      let messages1 := messages ++ [Msg.ai response]
      if response.tool_calls.isEmpty then 1
      else 1 + modelRoundTrips llm tools n (messages1 ++ dispatch tools response.tool_calls)

/-- Number of tool executions the loop performs on the given fuel and
history, following the same traversal as the loops. -/
def toolDispatchCount (llm : List Msg → Response) (tools : List Tool) :
    Nat → List Msg → Nat
  | 0, _ => 0
  | n + 1, messages =>
      let response := llm messages
      let messages1 := messages ++ [Msg.ai response]
      if response.tool_calls.isEmpty then 0
      else response.tool_calls.length +
        toolDispatchCount llm tools n (messages1 ++ dispatch tools response.tool_calls)

/-! ## Helper lemmas -/

/-- Conversion `Char.ofNat` then `Char.toNat` is the identity on valid code
points. -/
theorem charOfNat_toNat (n : Nat) (h : n.isValidChar) : (Char.ofNat n).toNat = n := by
  simp [Char.ofNat, h, Char.ofNatAux, Char.toNat]
  rfl

/-- ASCII lowercasing of a character is idempotent. -/
theorem charToLower_idem (c : Char) : c.toLower.toLower = c.toLower := by
  unfold Char.toLower
  by_cases h : c.toNat ≥ 65 ∧ c.toNat ≤ 90
  · rw [if_pos h]
    have hv : (Char.ofNat (c.toNat + 32)).toNat = c.toNat + 32 :=
      charOfNat_toNat _ (Or.inl (by omega))
    rw [if_neg (by rw [hv]; omega)]
  · rw [if_neg h, if_neg h]

/-- Lowercasing a string is idempotent, so `calculate_pricing` behaves the
same on an input and on its lowercased form. -/
theorem pyLower_idem (s : String) : pyLower (pyLower s) = pyLower s := by
  unfold pyLower
  congr 1
  rw [List.map_map]
  exact List.map_congr_left (fun c _ => charToLower_idem c)

/-! ## Claims about the pricing calculator -/

/-- C4: for every valid plan type in basic/pro/enterprise and every positive
user count, `calculate_pricing` returns a breakdown whose total equals
`users * rate` with rates basic=10, pro=20, enterprise=40. -/
theorem claim_C4 (users : Int) (plan : String) (hu : 0 < users)
    (hp : plan = "basic" ∨ plan = "pro" ∨ plan = "enterprise") :
    ∃ rate : Int,
      PRICING.lookup plan = some rate ∧
      (plan = "basic" → rate = 10) ∧ (plan = "pro" → rate = 20) ∧
      (plan = "enterprise" → rate = 40) ∧
      calculate_pricing users plan =
        "Pricing Calculation:\nPlan: " ++ pyCapitalize plan ++
          "\nNumber of Users: " ++ toString users ++
          "\nPrice per User: $" ++ toString rate ++
          "/month\nTotal Monthly Cost: $" ++ toString (users * rate) ++ "/month" := by
  rcases hp with h | h | h
  · subst h; exact ⟨10, by decide, by decide, by decide, by decide, rfl⟩
  · subst h; exact ⟨20, by decide, by decide, by decide, by decide, rfl⟩
  · subst h; exact ⟨40, by decide, by decide, by decide, by decide, rfl⟩

/-- Witness for C4 at the spec example `(10, "pro")`: total `10 * 20 = 200`. -/
theorem claim_C4_witness :
    ∃ rate : Int,
      PRICING.lookup "pro" = some rate ∧
      ("pro" = "basic" → rate = 10) ∧ ("pro" = "pro" → rate = 20) ∧
      ("pro" = "enterprise" → rate = 40) ∧
      calculate_pricing 10 "pro" =
        "Pricing Calculation:\nPlan: " ++ pyCapitalize "pro" ++
          "\nNumber of Users: " ++ toString (10 : Int) ++
          "\nPrice per User: $" ++ toString rate ++
          "/month\nTotal Monthly Cost: $" ++ toString ((10 : Int) * rate) ++ "/month" :=
  claim_C4 10 "pro" (by decide) (Or.inr (Or.inl rfl))

/-- C8: for every plan type whose lowercase form is not in the rate table,
`calculate_pricing` returns the error string enumerating the valid options;
being a total function into strings, it computes no cost and throws
nothing. -/
theorem claim_C8 (users : Int) (plan : String)
    (h : PRICING.lookup (pyLower plan) = none) :
    calculate_pricing users plan =
      "Error: Invalid plan type \x27" ++ pyLower plan ++
        "\x27. Valid options are: basic, pro, enterprise" := by
  simp only [calculate_pricing, h]

/-- Witness for C8 at the unrecognized plan `"gold"`. -/
theorem claim_C8_witness :
    calculate_pricing 3 "gold" =
      "Error: Invalid plan type \x27" ++ pyLower "gold" ++
        "\x27. Valid options are: basic, pro, enterprise" :=
  claim_C8 3 "gold" (by decide)

/-- C10: `calculate_pricing` lowercases the plan type before validation: it
behaves identically on any case variant and on the lowercased plan, a valid
lowercased plan is priced at that plan's rate, and the invalid-plan error
reports the lowercased input. -/
theorem claim_C10 (users : Int) (plan : String) :
    calculate_pricing users plan = calculate_pricing users (pyLower plan) ∧
    (∀ rate : Int, PRICING.lookup (pyLower plan) = some rate →
      calculate_pricing users plan =
        "Pricing Calculation:\nPlan: " ++ pyCapitalize (pyLower plan) ++
          "\nNumber of Users: " ++ toString users ++
          "\nPrice per User: $" ++ toString rate ++
          "/month\nTotal Monthly Cost: $" ++ toString (users * rate) ++ "/month") ∧
    (PRICING.lookup (pyLower plan) = none →
      calculate_pricing users plan =
        "Error: Invalid plan type \x27" ++ pyLower plan ++
          "\x27. Valid options are: basic, pro, enterprise") := by
  refine ⟨?_, ?_, ?_⟩
  · simp only [calculate_pricing, pyLower_idem]
  · intro rate h; simp only [calculate_pricing, h]
  · intro h; simp only [calculate_pricing, h]

/-- Witness for C10 at the case variant `"PRO"` with 7 users. -/
theorem claim_C10_witness :
    calculate_pricing 7 "PRO" = calculate_pricing 7 (pyLower "PRO") ∧
    (∀ rate : Int, PRICING.lookup (pyLower "PRO") = some rate →
      calculate_pricing 7 "PRO" =
        "Pricing Calculation:\nPlan: " ++ pyCapitalize (pyLower "PRO") ++
          "\nNumber of Users: " ++ toString (7 : Int) ++
          "\nPrice per User: $" ++ toString rate ++
          "/month\nTotal Monthly Cost: $" ++ toString ((7 : Int) * rate) ++ "/month") ∧
    (PRICING.lookup (pyLower "PRO") = none →
      calculate_pricing 7 "PRO" =
        "Error: Invalid plan type \x27" ++ pyLower "PRO" ++
          "\x27. Valid options are: basic, pro, enterprise") :=
  claim_C10 7 "PRO"

/-! ## Claims about the ticket log -/

/-- On a log without raising lines, the lookup scan agrees with taking the
record lines in order (blank lines skipped) and finding the first one whose
id matches exactly. -/
theorem scanTicketLog_clean (lines : List LogLine) (tid : String)
    (hclean : ∀ e, LogLine.malformed e ∉ lines) :
    scanTicketLog lines tid =
      Except.ok ((lines.filterMap LogLine.recordOf).find? fun t => t.ticket_id == tid) := by
  induction lines with
  | nil => rfl
  | cons l rest ih =>
    have hrest : ∀ e, LogLine.malformed e ∉ rest :=
      fun e he => hclean e (List.mem_cons_of_mem _ he)
    cases l with
    | blank => simpa [scanTicketLog, LogLine.recordOf] using ih hrest
    | malformed e => exact absurd (List.mem_cons_self _ _) (hclean e)
    | record t =>
      by_cases h : (t.ticket_id == tid)
      · simp [scanTicketLog, LogLine.recordOf, h]
      · simp only [scanTicketLog, LogLine.recordOf, List.filterMap_cons]
        rw [if_neg (by simp [h]), ih hrest]
        simp [List.find?, h]

/-- Scanning a clean log extended with one fresh record for that record's id
finds exactly the appended record. -/
theorem scanTicketLog_append_fresh (lines : List LogLine) (t : Ticket) (tid : String)
    (htid : t.ticket_id = tid)
    (hclean : ∀ e, LogLine.malformed e ∉ lines)
    (hfresh : ∀ u : Ticket, LogLine.record u ∈ lines → u.ticket_id ≠ tid) :
    scanTicketLog (lines ++ [LogLine.record t]) tid = Except.ok (some t) := by
  induction lines with
  | nil => simp [scanTicketLog, htid]
  | cons l rest ih =>
    have hrest : ∀ e, LogLine.malformed e ∉ rest :=
      fun e he => hclean e (List.mem_cons_of_mem _ he)
    have hfrest : ∀ u : Ticket, LogLine.record u ∈ rest → u.ticket_id ≠ tid :=
      fun u hu => hfresh u (List.mem_cons_of_mem _ hu)
    cases l with
    | blank => simpa [scanTicketLog] using ih hrest hfrest
    | malformed e => exact absurd (List.mem_cons_self _ _) (hclean e)
    | record u =>
      have hne : (u.ticket_id == tid) = false := by
        simp [hfresh u (List.mem_cons_self _ _)]
      simp only [List.cons_append, scanTicketLog, hne]
      rw [if_neg (by simp [hne])]
      exact ih hrest hfrest

/-- Sample record used in concrete ticket-log inputs. -/
def sampleTicket : Ticket :=
  { ticket_id := "TKT-1"
    timestamp := "2025-01-01T00:00:00"
    summary := "printer on fire"
    severity := "low"
    status := "open" }

/-- C5 counterexample: a malformed line is not skipped silently. With the log
`[malformed, record]` and the id of the record, the code returns the
error-reading string instead of the record the claim predicts: the scan
aborts at the malformed line. -/
theorem claim_C5_counterexample :
    lookup_ticket
        (some [LogLine.malformed "Expecting value", LogLine.record sampleTicket])
        "TKT-1" =
      "Error reading ticket log: Expecting value" ∧
    lookup_ticket
        (some [LogLine.malformed "Expecting value", LogLine.record sampleTicket])
        "TKT-1" ≠
      ticketDetails sampleTicket := by
  exact ⟨rfl, by decide⟩

/-- C5 (amended): `lookup_ticket` scans the log linearly from the start and
returns the formatted record of the first line whose id matches exactly;
blank lines are skipped silently, while a line whose processing raises aborts
the scan with an error-reading string; a missing log file yields the
no-tickets message rather than an error; a nonexistent id yields the
not-found message. The lookup reads only: it returns no updated log, so the
log is left unchanged by its type. -/
theorem claim_C5 (lines : List LogLine) (tid : String)
    (hclean : ∀ e, LogLine.malformed e ∉ lines) :
    lookup_ticket none tid = "No tickets found in the system." ∧
    lookup_ticket (some lines) tid =
      (match (lines.filterMap LogLine.recordOf).find? (fun t => t.ticket_id == tid) with
       | some t => ticketDetails t
       | none => "No ticket found with ID " ++ tid ++ ".") := by
  refine ⟨rfl, ?_⟩
  cases hfind : (lines.filterMap LogLine.recordOf).find? (fun t => t.ticket_id == tid) with
  | none => simp [lookup_ticket, scanTicketLog_clean lines tid hclean, hfind]
  | some t => simp [lookup_ticket, scanTicketLog_clean lines tid hclean, hfind]

/-- Witness for C5 on a log with a blank line, a matching record and a second
record, looked up by the first record's id. -/
theorem claim_C5_witness :
    lookup_ticket none "TKT-1" = "No tickets found in the system." ∧
    lookup_ticket (some [LogLine.blank, LogLine.record sampleTicket]) "TKT-1" =
      (match ([LogLine.blank, LogLine.record sampleTicket].filterMap
          LogLine.recordOf).find? (fun t => t.ticket_id == "TKT-1") with
       | some t => ticketDetails t
       | none => "No ticket found with ID " ++ "TKT-1" ++ ".") :=
  claim_C5 [LogLine.blank, LogLine.record sampleTicket] "TKT-1"
    (by intro e he; simp [List.mem_cons] at he)

/-- C6: for every summary and valid severity, `escalate_ticket` appends
exactly one well-formed record with status "open" to the log and returns a
confirmation containing the freshly minted id `TKT-<timestamp>`; provided the
existing log lines are parseable and none already carries that id, a
subsequent `lookup_ticket` with the id returns the same summary and severity
(round trip). -/
theorem claim_C6 (log : Option (List LogLine))
    (summary severity nowCompact nowIso : String)
    (hsev : severity = "low" ∨ severity = "medium" ∨ severity = "high")
    (hclean : ∀ e, LogLine.malformed e ∉ log.getD [])
    (hfresh : ∀ u : Ticket, LogLine.record u ∈ log.getD [] →
      u.ticket_id ≠ "TKT-" ++ nowCompact) :
    ∃ t : Ticket,
      t = { ticket_id := "TKT-" ++ nowCompact, timestamp := nowIso,
            summary := summary, severity := severity, status := "open" } ∧
      (escalate_ticket log summary severity nowCompact nowIso).1 =
        some (log.getD [] ++ [LogLine.record t]) ∧
      (escalate_ticket log summary severity nowCompact nowIso).2 =
        "🎫 Ticket Escalated Successfully!\nTicket ID: " ++ ("TKT-" ++ nowCompact) ++
          "\nSeverity: " ++ pyUpper severity ++
          "\nSummary: " ++ summary ++
          "\nStatus: Open\nA Tier-2 support representative will contact you shortly." ∧
      lookup_ticket (escalate_ticket log summary severity nowCompact nowIso).1
          ("TKT-" ++ nowCompact) =
        ticketDetails t := by
  have hl : pyLower severity = severity := by
    rcases hsev with h | h | h <;> subst h <;> decide
  have hmem : severity ∈ ["low", "medium", "high"] := by
    rcases hsev with h | h | h <;> subst h <;> decide
  refine ⟨_, rfl, ?_, ?_, ?_⟩
  · unfold escalate_ticket
    rw [hl, if_pos hmem]
  · unfold escalate_ticket
    rw [hl, if_pos hmem]
  · have hscan := scanTicketLog_append_fresh (log.getD [])
        { ticket_id := "TKT-" ++ nowCompact, timestamp := nowIso,
          summary := summary, severity := severity, status := "open" }
        ("TKT-" ++ nowCompact) rfl hclean hfresh
    unfold escalate_ticket
    rw [hl, if_pos hmem]
    simp only [lookup_ticket, hscan]

/-- Witness for C6: escalating "db down" at severity "high" onto a missing
log, at a fixed clock reading. -/
theorem claim_C6_witness :
    ∃ t : Ticket,
      t = { ticket_id := "TKT-" ++ "20251012090000", timestamp := "2025-10-12T09:00:00",
            summary := "db down", severity := "high", status := "open" } ∧
      (escalate_ticket none "db down" "high" "20251012090000" "2025-10-12T09:00:00").1 =
        some ((none : Option (List LogLine)).getD [] ++ [LogLine.record t]) ∧
      (escalate_ticket none "db down" "high" "20251012090000" "2025-10-12T09:00:00").2 =
        "🎫 Ticket Escalated Successfully!\nTicket ID: " ++ ("TKT-" ++ "20251012090000") ++
          "\nSeverity: " ++ pyUpper "high" ++
          "\nSummary: " ++ "db down" ++
          "\nStatus: Open\nA Tier-2 support representative will contact you shortly." ∧
      lookup_ticket
          (escalate_ticket none "db down" "high" "20251012090000" "2025-10-12T09:00:00").1
          ("TKT-" ++ "20251012090000") =
        ticketDetails t :=
  claim_C6 none "db down" "high" "20251012090000" "2025-10-12T09:00:00"
    (Or.inr (Or.inr rfl))
    (fun _ he => absurd he (List.not_mem_nil _))
    (fun _ hu => absurd hu (List.not_mem_nil _))

/-! ## Claims about the documentation search -/

/-- Appending to a nonempty string keeps it nonempty. -/
theorem append_ne_left (a b : String) (ha : a ≠ "") : a ++ b ≠ "" := by
  intro hc
  apply ha
  have hd := congrArg String.data hc
  rw [String.data_append] at hd
  exact String.ext (List.append_eq_nil.mp hd).1

/-- Every rendered citation block is nonempty: it starts with a bracket. -/
theorem formatHit_ne_empty (h : SearchHit) : formatHit h ≠ "" := by
  unfold formatHit
  repeat
    apply append_ne_left
  decide

/-- Joining a nonempty list of nonempty strings gives a nonempty string. -/
theorem joinSep_ne_empty (sep : String) (xs : List String)
    (hne : xs ≠ []) (hx : ∀ x ∈ xs, x ≠ "") : joinSep sep xs ≠ "" := by
  match xs, hne with
  | [x], _ => simpa [joinSep] using hx x (by simp)
  | x :: y :: rest, _ =>
    show x ++ sep ++ joinSep sep (y :: rest) ≠ ""
    exact append_ne_left _ _ (append_ne_left _ _ (hx x (by simp)))

/-- The search result is never the empty string, whatever the index states. -/
theorem search_documentation_ne_empty (a b : Option SimIndex) (q : String) :
    search_documentation a b q ≠ "" := by
  cases a with
  | none => exact append_ne_left _ _ (by decide)
  | some ndb =>
    by_cases hempty : (mergedResults ndb b q).isEmpty
    · have heq : search_documentation (some ndb) b q =
          "No relevant documentation was found for this query." := by
        simp [search_documentation, hempty]
      rw [heq]; decide
    · have heq : search_documentation (some ndb) b q =
          joinSep "\n\n---\n\n"
            (((List.insertionSort hitLE (mergedResults ndb b q)).take 5).map formatHit) := by
        simp [search_documentation, hempty]
      rw [heq]
      have hresne : mergedResults ndb b q ≠ [] := by
        intro hc; exact hempty (by simp [hc])
      have hsortne : List.insertionSort hitLE (mergedResults ndb b q) ≠ [] := by
        intro hc
        have hp := List.perm_insertionSort hitLE (mergedResults ndb b q)
        rw [hc] at hp
        exact hresne hp.symm.eq_nil
      apply joinSep_ne_empty
      · cases hs : List.insertionSort hitLE (mergedResults ndb b q) with
        | nil => exact absurd hs hsortne
        | cons z zs => simp [hs]
      · intro x hx
        obtain ⟨hit, _, rfl⟩ := List.mem_map.mp hx
        exact formatHit_ne_empty hit

/-- C3 counterexample: when neither index exists the code returns the
database-unavailable error string, not the no-relevant-documentation
sentinel the claim names. -/
theorem claim_C3_counterexample :
    search_documentation none none "test" ≠
      "No relevant documentation was found for this query." := by
  decide

/-- C3 (amended): when the base index does not exist, `search_documentation`
returns the index-unavailable error string (whether or not a session index
exists); when the base index exists and the combined result list is empty, it
returns the no-relevant-documentation sentinel; in every case the result is a
nonempty string, and the function is total, so no exception escapes. -/
theorem claim_C3 (ndb udb : SimIndex) (q : String) (h0 : ndb q 3 = []) :
    search_documentation none (some udb) q =
      "Error: NebulaSoft documentation database is not available. " ++
        "Please run ingest.py to build the vector database." ∧
    search_documentation none none q =
      "Error: NebulaSoft documentation database is not available. " ++
        "Please run ingest.py to build the vector database." ∧
    search_documentation (some ndb) none q =
      "No relevant documentation was found for this query." ∧
    (udb q 3 = [] →
      search_documentation (some ndb) (some udb) q =
        "No relevant documentation was found for this query.") ∧
    (∀ (a b : Option SimIndex) (r : String), search_documentation a b r ≠ "") := by
  refine ⟨rfl, rfl, ?_, ?_, search_documentation_ne_empty⟩
  · simp [search_documentation, mergedResults, h0]
  · intro h1
    simp [search_documentation, mergedResults, h0, h1]

/-- Empty similarity index used as a concrete input. -/
def emptyIndex : SimIndex := fun _ _ => []

/-- Witness for C3 with both indexes empty. -/
theorem claim_C3_witness :
    search_documentation none (some emptyIndex) "test" =
      "Error: NebulaSoft documentation database is not available. " ++
        "Please run ingest.py to build the vector database." ∧
    search_documentation none none "test" =
      "Error: NebulaSoft documentation database is not available. " ++
        "Please run ingest.py to build the vector database." ∧
    search_documentation (some emptyIndex) none "test" =
      "No relevant documentation was found for this query." ∧
    (emptyIndex "test" 3 = [] →
      search_documentation (some emptyIndex) (some emptyIndex) "test" =
        "No relevant documentation was found for this query.") ∧
    (∀ (a b : Option SimIndex) (r : String), search_documentation a b r ≠ "") :=
  claim_C3 emptyIndex emptyIndex "test" rfl

/-- C2: the retrieval merge concatenates the (up to 3) tagged base hits with
the (up to 3) tagged session hits, sorts the combined list ascending by
distance score under the single total order `hitLE`, truncates to the top 5
and renders them in that order; in particular, with one base match at
distance 1/10 and one session match at distance 1/20, the session match is
rendered first. -/
theorem claim_C2 (ndb udb : SimIndex) (q : String)
    (hn : (ndb q 3).length ≤ 3) (hu : (udb q 3).length ≤ 3)
    (hne : ndb q 3 ≠ [] ∨ udb q 3 ≠ []) :
    (∃ hits : List SearchHit,
      hits.Perm (((ndb q 3).map fun p => (⟨p.1, p.2, KB.nebula⟩ : SearchHit)) ++
        ((udb q 3).map fun p => (⟨p.1, p.2, KB.user⟩ : SearchHit))) ∧
      List.Sorted hitLE hits ∧
      hits.length ≤ 6 ∧
      search_documentation (some ndb) (some udb) q =
        joinSep "\n\n---\n\n" ((hits.take 5).map formatHit)) ∧
    (∀ d1 d2 : RDoc, ndb q 3 = [(d1, 1 / 10)] → udb q 3 = [(d2, 1 / 20)] →
      search_documentation (some ndb) (some udb) q =
        joinSep "\n\n---\n\n"
          [formatHit ⟨d2, 1 / 20, KB.user⟩, formatHit ⟨d1, 1 / 10, KB.nebula⟩]) := by
  constructor
  · refine ⟨List.insertionSort hitLE (mergedResults ndb (some udb) q),
      List.perm_insertionSort hitLE _, List.sorted_insertionSort hitLE _, ?_, ?_⟩
    · rw [(List.perm_insertionSort hitLE _).length_eq]
      have hlen : (mergedResults ndb (some udb) q).length =
          (ndb q 3).length + (udb q 3).length := by
        simp [mergedResults]
      rw [hlen]; omega
    · have hresne : mergedResults ndb (some udb) q ≠ [] := by
        intro hc
        simp only [mergedResults] at hc
        have h2 := List.append_eq_nil.mp hc
        rcases hne with h | h
        · exact h (List.map_eq_nil_iff.mp h2.1)
        · exact h (List.map_eq_nil_iff.mp h2.2)
      have hempty : (mergedResults ndb (some udb) q).isEmpty = false := by
        cases hm : mergedResults ndb (some udb) q with
        | nil => exact absurd hm hresne
        | cons z zs => rfl
      simp [search_documentation, hempty]
  · intro d1 d2 h1 h2
    have hm : mergedResults ndb (some udb) q =
        [⟨d1, 1 / 10, KB.nebula⟩, ⟨d2, 1 / 20, KB.user⟩] := by
      simp [mergedResults, h1, h2]
    have hsort : List.insertionSort hitLE (mergedResults ndb (some udb) q) =
        [⟨d2, 1 / 20, KB.user⟩, ⟨d1, 1 / 10, KB.nebula⟩] := by
      rw [hm]
      simp only [List.insertionSort, List.orderedInsert]
      rw [if_neg (by norm_num [hitLE])]
    have hempty : (mergedResults ndb (some udb) q).isEmpty = false := by
      rw [hm]; rfl
    simp only [search_documentation, hempty, Bool.false_eq_true, if_false]
    rw [hsort]
    rfl

/-- Base-index document used in concrete retrieval inputs. -/
def baseDoc : RDoc :=
  { page_content := "Base manual text about error 500"
    source := some "nebula_manual.txt"
    chunk_id := some "4" }

/-- Session-index document used in concrete retrieval inputs. -/
def sessionDoc : RDoc :=
  { page_content := "Uploaded note about error 500"
    source := some "notes.txt"
    chunk_id := some "0" }

/-- Stub base index returning one hit at distance 1/10. -/
def baseIndex : SimIndex := fun _ _ => [(baseDoc, 1 / 10)]

/-- Stub session index returning one hit at distance 1/20. -/
def sessionIndex : SimIndex := fun _ _ => [(sessionDoc, 1 / 20)]

/-- Witness for C2 on the stub indexes: one base hit at 1/10, one session hit
at 1/20, session hit rendered first. -/
theorem claim_C2_witness :
    (∃ hits : List SearchHit,
      hits.Perm (((baseIndex "error 500" 3).map fun p => (⟨p.1, p.2, KB.nebula⟩ : SearchHit)) ++
        ((sessionIndex "error 500" 3).map fun p => (⟨p.1, p.2, KB.user⟩ : SearchHit))) ∧
      List.Sorted hitLE hits ∧
      hits.length ≤ 6 ∧
      search_documentation (some baseIndex) (some sessionIndex) "error 500" =
        joinSep "\n\n---\n\n" ((hits.take 5).map formatHit)) ∧
    (∀ d1 d2 : RDoc,
      baseIndex "error 500" 3 = [(d1, 1 / 10)] →
      sessionIndex "error 500" 3 = [(d2, 1 / 20)] →
      search_documentation (some baseIndex) (some sessionIndex) "error 500" =
        joinSep "\n\n---\n\n"
          [formatHit ⟨d2, 1 / 20, KB.user⟩, formatHit ⟨d1, 1 / 10, KB.nebula⟩]) :=
  claim_C2 baseIndex sessionIndex "error 500" (by decide) (by decide)
    (Or.inl (by decide))

/-! ## Claims about the tool-calling loop -/

/-- Under a model stub that always requests at least one tool call, both loop
variants exhaust any iteration budget, returning their fixed exhaustion
messages, and the model is invoked exactly once per budgeted iteration. -/
theorem runLoop_exhaust (llm : List Msg → Response) (tools : List Tool)
    (hstub : ∀ msgs : List Msg, (llm msgs).tool_calls ≠ []) :
    ∀ (n : Nat) (msgs : List Msg),
      Agent.runLoop llm tools n msgs = agentExhaustionMessage ∧
      App.runLoop llm tools n msgs = appExhaustionMessage ∧
      modelRoundTrips llm tools n msgs = n := by
  intro n
  induction n with
  | zero => exact fun _ => ⟨rfl, rfl, rfl⟩
  | succ k ih =>
    intro msgs
    have hne : (llm msgs).tool_calls.isEmpty = false := by
      cases hc : (llm msgs).tool_calls with
      | nil => exact absurd hc (hstub msgs)
      | cons a as => rfl
    refine ⟨?_, ?_, ?_⟩
    · simp only [Agent.runLoop, hne, Bool.false_eq_true, if_false]
      exact (ih _).1
    · simp only [App.runLoop, hne, Bool.false_eq_true, if_false]
      exact (ih _).2.1
    · simp only [modelRoundTrips, hne, Bool.false_eq_true, if_false]
      rw [(ih _).2.2]
      omega

/-- C1: for every model stub that requests at least one tool call on every
reply, both loop variants terminate after exactly 5 model round-trips and
return their fixed apology-and-escalate exhaustion messages; the round-trip
count equals the cap of 5, so the model is never invoked a 6th time. -/
theorem claim_C1 (llm : List Msg → Response) (tools : List Tool)
    (system_prompt user_input : String) (messages0 : List Msg)
    (hstub : ∀ msgs : List Msg, (llm msgs).tool_calls ≠ []) :
    Agent.run_agent_with_tools llm tools system_prompt user_input = agentExhaustionMessage ∧
    App.run_agent_with_tools llm tools messages0 = appExhaustionMessage ∧
    modelRoundTrips llm tools 5 [Msg.system system_prompt, Msg.human user_input] = 5 ∧
    modelRoundTrips llm tools 5 messages0 = 5 :=
  ⟨(runLoop_exhaust llm tools hstub 5 _).1,
   (runLoop_exhaust llm tools hstub 5 _).2.1,
   (runLoop_exhaust llm tools hstub 5 _).2.2,
   (runLoop_exhaust llm tools hstub 5 _).2.2⟩

/-- Scripted tool call used by the loop stubs. -/
def stubToolCall : ToolCall :=
  { name := "search_documentation", args := [("query", "error 500")], id := "call_1" }

/-- Model stub that requests the same tool on every reply. -/
def stubAlwaysTool : List Msg → Response :=
  fun _ => { content := "", tool_calls := [stubToolCall] }

/-- Witness for C1 with the always-requesting stub and no registered tools. -/
theorem claim_C1_witness :
    Agent.run_agent_with_tools stubAlwaysTool [] "sys" "hello" = agentExhaustionMessage ∧
    App.run_agent_with_tools stubAlwaysTool [] [] = appExhaustionMessage ∧
    modelRoundTrips stubAlwaysTool [] 5 [Msg.system "sys", Msg.human "hello"] = 5 ∧
    modelRoundTrips stubAlwaysTool [] 5 [] = 5 :=
  claim_C1 stubAlwaysTool [] "sys" "hello" []
    (fun _ => List.cons_ne_nil _ _)

/-- C7: in every dispatch step, exactly one tool-result turn is produced per
requested call, the i-th result turn answers the i-th call and carries that
call's identifier, and a call whose name matches no registered tool receives
the synthesized not-found result instead of raising. -/
theorem claim_C7 (tools : List Tool) (calls : List ToolCall) (i : Nat) (c : ToolCall)
    (hc : calls[i]? = some c) :
    (dispatch tools calls).length = calls.length ∧
    (dispatch tools calls)[i]? = some (Msg.tool (execCall tools c) c.id) ∧
    (findTool tools c.name = none →
      execCall tools c = "Tool " ++ c.name ++ " not found") := by
  refine ⟨List.length_map _ _, ?_, ?_⟩
  · simp only [dispatch, List.getElem?_map, hc]
    rfl
  · intro hf
    simp [execCall, hf]

/-- Registered tool used in the C7 witness; its name differs from the
requested call's name. -/
def echoTool : Tool := { name := "echo", run := fun _ => Except.ok "done" }

/-- Witness for C7: one requested call whose name matches no registered tool
receives the synthesized not-found result, with the call id preserved. -/
theorem claim_C7_witness :
    (dispatch [echoTool] [stubToolCall]).length = [stubToolCall].length ∧
    (dispatch [echoTool] [stubToolCall])[0]? =
      some (Msg.tool (execCall [echoTool] stubToolCall) stubToolCall.id) ∧
    (findTool [echoTool] stubToolCall.name = none →
      execCall [echoTool] stubToolCall =
        "Tool " ++ stubToolCall.name ++ " not found") :=
  claim_C7 [echoTool] [stubToolCall] 0 stubToolCall rfl

/-- When the model's reply carries no tool calls, one budgeted iteration
returns that reply's text. -/
theorem runLoop_step_done (llm : List Msg → Response) (tools : List Tool)
    (n : Nat) (msgs : List Msg) (h : (llm msgs).tool_calls = []) :
    Agent.runLoop llm tools (n + 1) msgs = (llm msgs).content := by
  simp [Agent.runLoop, h]

/-- When the model's reply carries no tool calls, one budgeted iteration
performs exactly one model round-trip. -/
theorem modelRoundTrips_step_done (llm : List Msg → Response) (tools : List Tool)
    (n : Nat) (msgs : List Msg) (h : (llm msgs).tool_calls = []) :
    modelRoundTrips llm tools (n + 1) msgs = 1 := by
  simp [modelRoundTrips, h]

/-- When the model's reply carries no tool calls, one budgeted iteration
dispatches no tools. -/
theorem toolDispatchCount_step_done (llm : List Msg → Response) (tools : List Tool)
    (n : Nat) (msgs : List Msg) (h : (llm msgs).tool_calls = []) :
    toolDispatchCount llm tools (n + 1) msgs = 0 := by
  simp [toolDispatchCount, h]

/-- C9: for every model stub whose first reply contains no tool calls, the
loop performs exactly one model round-trip, dispatches zero tools, and
returns that reply's text as the final answer. -/
theorem claim_C9 (llm : List Msg → Response) (tools : List Tool)
    (system_prompt user_input : String)
    (h : (llm [Msg.system system_prompt, Msg.human user_input]).tool_calls = []) :
    Agent.run_agent_with_tools llm tools system_prompt user_input =
      (llm [Msg.system system_prompt, Msg.human user_input]).content ∧
    modelRoundTrips llm tools 5 [Msg.system system_prompt, Msg.human user_input] = 1 ∧
    toolDispatchCount llm tools 5 [Msg.system system_prompt, Msg.human user_input] = 0 :=
  ⟨runLoop_step_done llm tools 4 _ h,
   modelRoundTrips_step_done llm tools 4 _ h,
   toolDispatchCount_step_done llm tools 4 _ h⟩

/-- Model stub that answers immediately without tool calls. -/
def stubNoTools : List Msg → Response :=
  fun _ => { content := "All good", tool_calls := [] }

/-- Witness for C9 with the immediately-answering stub. -/
theorem claim_C9_witness :
    Agent.run_agent_with_tools stubNoTools [] "sys" "hello" =
      (stubNoTools [Msg.system "sys", Msg.human "hello"]).content ∧
    modelRoundTrips stubNoTools [] 5 [Msg.system "sys", Msg.human "hello"] = 1 ∧
    toolDispatchCount stubNoTools [] 5 [Msg.system "sys", Msg.human "hello"] = 0 :=
  claim_C9 stubNoTools [] "sys" "hello" rfl
